import Mathlib

/-!
Verification of the allez-middleman relay server: a shallow embedding of
its authentication middleware, Socket.IO event handlers, and HTTP ingestion
endpoints, with theorems settling the specified behavioural claims.

JavaScript conventions are modelled explicitly: an absent or `undefined`
value is `Option.none`; an empty string is falsy like `undefined`, so
truthiness tests are modelled by `strTruthy`.
-/

namespace AllezMiddleman

/-- JS truthiness for a possibly-absent string header/field:
`undefined` and the empty string are falsy. -/
def strTruthy : Option String → Bool
  | none => false
  | some s => s != ""

/-- Template-literal stringification: an `undefined` field interpolates
as the text "undefined". -/
def jsStr : Option String → String
  | none => "undefined"
  | some s => s

/-- JS `a || b` on a possibly-absent string with a string default. -/
def jsOrStr (o : Option String) (d : String) : String :=
  if strTruthy o then o.getD "" else d

/-- Result of an Express middleware: call `next()` or respond with a
status code and an error body field. -/
inductive MiddlewareResult where
  | next : MiddlewareResult
  | respond (status : Nat) (error : String) : MiddlewareResult
deriving DecidableEq, Repr

/-- The validateBackendAuth middleware from the auth module: checks the
`x-api-key` header against `process.env.LARAVEL_API_KEY`.
Order of checks as in the source: missing header -> 401 "API key required";
unconfigured expected key -> 500 "Server configuration error";
mismatch -> 401 "Invalid API key"; else `next()`.
(The surrounding try/catch is dead: no statement in the body throws.) -/
def validateBackendAuth (apiKeyHeader : Option String)
    (envLaravelKey : Option String) : MiddlewareResult :=
  if !strTruthy apiKeyHeader then
    .respond 401 "API key required"
  else if !strTruthy envLaravelKey then
    .respond 500 "Server configuration error"
  else if apiKeyHeader.getD "" != envLaravelKey.getD "" then
    .respond 401 "Invalid API key"
  else
    .next

/-- The hardcoded fallback for `LARAVEL_API_KEY` in app.js. -/
def defaultLaravelApiKey : String := "HKeGw>L/v9-3W4/"

/-- The app.js constant `LARAVEL_API_KEY = process.env.LARAVEL_API_KEY ||
<fallback>`. -/
def laravelApiKeyOf (env : Option String) : String :=
  jsOrStr env defaultLaravelApiKey

/-- The validateApiKey middleware in app.js:
`if (!apiKey || apiKey !== LARAVEL_API_KEY) return 401 Invalid API key`. -/
def validateApiKey (apiKeyHeader : Option String)
    (configuredKey : String) : MiddlewareResult :=
  if !strTruthy apiKeyHeader || apiKeyHeader.getD "" != configuredKey then
    .respond 401 "Invalid API key"
  else
    .next

/-- Byte-for-byte prefix test on character lists (helper for modelling
JS `String.prototype.replace` with a string pattern). -/
def isPrefixL : List Char → List Char → Bool
  | [], _ => true
  | _ :: _, [] => false
  | a :: as, b :: bs => a == b && isPrefixL as bs

/-- JS string replace with a string pattern and empty replacement:
removes the first
occurrence of `pat`, scanning left to right; leaves `s` unchanged when
`pat` does not occur. -/
def replaceFirstL (pat : List Char) : List Char → List Char
  | [] => if isPrefixL pat [] then List.drop pat.length [] else []
  | c :: rest =>
      if isPrefixL pat (c :: rest) then List.drop pat.length (c :: rest)
      else c :: replaceFirstL pat rest

/-- String-level wrapper for `replaceFirstL`. -/
def replaceFirstStr (pat s : String) : String :=
  String.mk (replaceFirstL pat.data s.data)

/-- Decoded JWT payload fields read by the socket auth middleware. -/
structure JwtClaims where
  user_id : Option String
  id : Option String
  user_type : Option String
  email : Option String
deriving DecidableEq, Repr

/-- Result of `validateSocketAuth`: either `next(new Error(msg))` or a
socket with identity fields attached. -/
inductive SocketAuthResult where
  | err (msg : String) : SocketAuthResult
  | ok (userId : Option String) (userType : String)
      (userEmail : Option String) : SocketAuthResult
deriving DecidableEq, Repr

/-- JS `a || b` keeping the option (first truthy wins). -/
def pickTruthy (a b : Option String) : Option String :=
  if strTruthy a then a else b

/-- Line 38 of the auth module:
the token is the handshake auth field if truthy, otherwise the
Authorization header with its first occurrence of the Bearer-space text
removed. -/
def extractSocketToken (authToken authHeader : Option String) : Option String :=
  if strTruthy authToken then authToken
  else authHeader.map (fun h => replaceFirstStr "Bearer " h)

/-- The validateSocketAuth middleware from the auth module: extracts the
token (handshake auth field, else stripped Authorization header), rejects a
falsy token, rejects when `JWT_SECRET` is unconfigured, verifies the token
(`verify` abstracts `jwt.verify` with the secret fixed), and on success
attaches user_id (falling back to id), user_type (falling back to rider)
and email to the socket. -/
def validateSocketAuth (verify : String → Option JwtClaims)
    (jwtSecretConfigured : Bool)
    (authToken authHeader : Option String) : SocketAuthResult :=
  let token := extractSocketToken authToken authHeader
  if !strTruthy token then
    .err "Authentication token required"
  else if !jwtSecretConfigured then
    .err "Server configuration error"
  else
    match verify (token.getD "") with
    | none => .err "Invalid token"
    | some d =>
        .ok (pickTruthy d.user_id d.id)
          (jsOrStr d.user_type "rider") d.email

/-- The per-socket mutable fields that the app.js connection handlers read
and write, plus the current room memberships of the socket. -/
structure SocketState where
  userId : Option String
  authenticated : Bool
  rooms : List String
deriving DecidableEq, Repr

/-- A socket before any handler has run: no identity, not authenticated,
no rooms joined. -/
def initialSocket : SocketState :=
  { userId := none, authenticated := false, rooms := [] }

/-- Model of `socket.join(room)`: membership is a set, so joining an already-joined
room is a no-op. -/
def addRoom (room : String) (rooms : List String) : List String :=
  if room ∈ rooms then rooms else room :: rooms

/-- Acknowledgement emitted by the app.js authenticate handler. -/
inductive AuthAck where
  | success (userId : Option String) : AuthAck
  | failure (error : String) : AuthAck
deriving DecidableEq, Repr

/-- The app.js authenticate socket handler, with
`data = { token, userId }`: if the token is truthy it is accepted without
any verification (`socket.userId = userId; socket.authenticated = true`);
if no token is supplied the socket is still marked authenticated
("Allow unauthenticated connections for testing"). The catch branch is
dead: nothing in the try block throws. -/
def authenticateHandler (token userId : Option String)
    (s : SocketState) : SocketState × AuthAck :=
  if strTruthy token then
    ({ s with userId := userId, authenticated := true }, .success userId)
  else
    ({ s with authenticated := true }, .success none)

/-- The app.js join_user_room socket handler: joins
`user_<userId>` and overwrites `socket.userId`, with no authentication or
authorization check. -/
def join_user_room (uid : String) (s : SocketState) : SocketState :=
  { s with rooms := addRoom ("user_" ++ uid) s.rooms, userId := some uid }

/-- The app.js join_trip_room socket handler: joins
`trip_<tripId>` with no authentication or authorization check. -/
def join_trip_room (tid : String) (s : SocketState) : SocketState :=
  { s with rooms := addRoom ("trip_" ++ tid) s.rooms }

/-- One `io.to(room).emit(event, payload)` call: the Socket.IO room
addressed and the event name delivered to its members. -/
structure Emission where
  room : String
  event : String
deriving DecidableEq, Repr

/-- The JSON envelope an HTTP endpoint responds with (`res.json`), plus
the HTTP status (200 unless set explicitly). -/
structure JsonResponse where
  status : Nat
  success : Option Bool
  message : Option String
  error : Option String
deriving DecidableEq, Repr

/-- The Express error-handling middleware in app.js: a handler that threw
gets a 500 "Internal server error" response (any emissions would have
happened before the throw; in the modelled endpoints the throw precedes
every emission). -/
def applyErrorMiddleware (r : Except String (JsonResponse × List Emission)) :
    JsonResponse × List Emission :=
  match r with
  | Except.ok v => v
  | Except.error _ =>
      ({ status := 500, success := none, message := none,
         error := some "Internal server error" }, [])

/-- Whether connection `c` receives anything from the emissions `es`,
given the room-membership map `m`. -/
def receivesB (es : List Emission) (m : String → List String) (c : String) :
    Bool :=
  es.any fun e => (m e.room).contains c

/-- Body fields read by `POST /api/trip/accept`. -/
structure TripAcceptBody where
  tripId : Option String
  driverId : Option String
  riderId : Option String
deriving DecidableEq, Repr

/-- `POST /api/trip/accept` (after validateApiKey): if Socket.IO is up it
emits `trip_accepted` to `user_<riderId>` and `trip_accepted_confirmation`
to `user_<driverId>` — and nothing to any `trip_` room — then always
responds 200 `success: true`. Nothing in the handler can throw. -/
def tripAcceptHandler (b : TripAcceptBody) (ioUp : Bool) :
    JsonResponse × List Emission :=
  ({ status := 200, success := some true, message := some "Trip accepted",
     error := none },
   if ioUp then
     [ { room := "user_" ++ jsStr b.riderId, event := "trip_accepted" },
       { room := "user_" ++ jsStr b.driverId,
         event := "trip_accepted_confirmation" } ]
   else [])

/-- Body fields read by `POST /api/trip/send-to-drivers`. -/
structure SendToDriversBody where
  tripId : Option String
  riderId : Option String
  driverIds : Option (List String)
  tripData : Option String
deriving DecidableEq, Repr

/-- `POST /api/trip/send-to-drivers` (after validateApiKey): no field
validation. When `driverIds` is absent the handler throws a TypeError —
inside the `if (io)` block at `driverIds.forEach`, or (with io down) at the
length read on driverIds at the log line — before any emission; both dereferences
precede every emit and the response. Otherwise it emits `trip_request` to
`user_<id>` for each listed id (when io is up) and responds 200
`success: true`. -/
def sendToDriversHandler (b : SendToDriversBody) (ioUp : Bool) :
    Except String (JsonResponse × List Emission) :=
  match b.driverIds with
  | none => Except.error "TypeError: driverIds is undefined"
  | some ds =>
      Except.ok
        ({ status := 200, success := some true,
           message := some "Trip sent to drivers", error := none },
         if ioUp then
           ds.map (fun d =>
             { room := "user_" ++ d, event := "trip_request" })
         else [])

/-- Body fields read by `POST /api/emergency/alert`. -/
structure EmergencyBody where
  tripId : Option String
  userId : Option String
  alertKind : Option String
  location : Option String
deriving DecidableEq, Repr

/-- `POST /api/emergency/alert` (after validateApiKey): when Socket.IO is
up it emits a single `emergency_alert` to the room `trip_<tripId>` only —
no `user_` rooms and no monitoring room — then always responds 200
`success: true`. Nothing in the handler can throw.
(`alertKind` models the body field named `type` in the source.) -/
def emergencyAlertHandler (b : EmergencyBody) (ioUp : Bool) :
    JsonResponse × List Emission :=
  ({ status := 200, success := some true,
     message := some "Emergency alert sent", error := none },
   if ioUp then
     [ { room := "trip_" ++ jsStr b.tripId, event := "emergency_alert" } ]
   else [])

/-- Concrete membership map for refuting C2: one connection `c0` that
subscribed only to the shared trip room `trip_T1`. -/
def membershipC2 : String → List String :=
  fun room => if room = "trip_T1" then ["c0"] else []

/-- Concrete membership map for refuting C6: `c1` in the monitoring room,
`c2` in the personal room of the alerting user `U1`. -/
def membershipC6 : String → List String :=
  fun room =>
    if room = "monitoring" then ["c1"]
    else if room = "user_U1" then ["c2"]
    else []

end AllezMiddleman

namespace AllezMiddleman

/-- C5: the backend credential verifier (validateBackendAuth) returns
401 "API key required" when no key is presented, 500 "Server configuration
error" (short-circuiting before key comparison) when a key is presented but
none is configured, and 401 "Invalid API key" when the presented key
differs from the configured one. -/
theorem validateBackendAuth_spec (presented expected : Option String) :
    (strTruthy presented = false →
      validateBackendAuth presented expected = .respond 401 "API key required") ∧
    (strTruthy presented = true → strTruthy expected = false →
      validateBackendAuth presented expected =
        .respond 500 "Server configuration error") ∧
    (strTruthy presented = true → strTruthy expected = true →
      presented.getD "" ≠ expected.getD "" →
      validateBackendAuth presented expected = .respond 401 "Invalid API key") := by
  refine ⟨?_, ?_, ?_⟩
  · intro h
    simp [validateBackendAuth, h]
  · intro h1 h2
    simp [validateBackendAuth, h1, h2]
  · intro h1 h2 h3
    simp [validateBackendAuth, h1, h2, h3]

/-- Witness for C5: all three branches exercised at concrete keys. -/
theorem validateBackendAuth_spec_witness :
    validateBackendAuth none (some "k") = .respond 401 "API key required" ∧
    validateBackendAuth (some "k") none =
      .respond 500 "Server configuration error" ∧
    validateBackendAuth (some "a") (some "b") =
      .respond 401 "Invalid API key" :=
  ⟨(validateBackendAuth_spec none (some "k")).1 (by decide),
   (validateBackendAuth_spec (some "k") none).2.1 (by decide) (by decide),
   (validateBackendAuth_spec (some "a") (some "b")).2.2 (by decide) (by decide)
     (by decide)⟩

/-- C9: the app.js validateApiKey middleware rejects an absent or mismatching
`x-api-key` header with 401 "Invalid API key" (indistinguishably), and since
`LARAVEL_API_KEY` always falls back to a nonempty hardcoded default, the
configured key is never empty — a misconfiguration (500) outcome is
unreachable: the only middleware outcomes are next or that single 401. -/
theorem validateApiKey_spec (env header : Option String) :
    (laravelApiKeyOf env ≠ "") ∧
    (validateApiKey none (laravelApiKeyOf env) = .respond 401 "Invalid API key") ∧
    (header.getD "" ≠ laravelApiKeyOf env →
      validateApiKey header (laravelApiKeyOf env) =
        .respond 401 "Invalid API key") ∧
    (∀ h : Option String,
      validateApiKey h (laravelApiKeyOf env) = .next ∨
      validateApiKey h (laravelApiKeyOf env) = .respond 401 "Invalid API key") := by
  refine ⟨?_, ?_, ?_, ?_⟩
  · cases env with
    | none => simp [laravelApiKeyOf, jsOrStr, strTruthy, defaultLaravelApiKey]
    | some s =>
        by_cases hs : s = ""
        · simp [laravelApiKeyOf, jsOrStr, strTruthy, hs, defaultLaravelApiKey]
        · simp [laravelApiKeyOf, jsOrStr, strTruthy, hs]
  · simp [validateApiKey, strTruthy]
  · intro hne
    cases header with
    | none => simp [validateApiKey, strTruthy]
    | some s =>
        by_cases hs : s = ""
        · simp [validateApiKey, strTruthy, hs]
        · simp only [validateApiKey, strTruthy, Option.getD_some] at *
          simp [hs, hne]
  · intro h
    by_cases hc : (!strTruthy h || h.getD "" != laravelApiKeyOf env) = true
    · right; simp [validateApiKey, hc]
    · left; simp [validateApiKey, hc]

/-- Witness for C9: a wrong key against the default-configured key is
rejected with the same 401 as a missing key. -/
theorem validateApiKey_spec_witness :
    (some "wrong" : Option String).getD "" ≠ laravelApiKeyOf none ∧
    validateApiKey (some "wrong") (laravelApiKeyOf none) =
      .respond 401 "Invalid API key" :=
  ⟨by decide, (validateApiKey_spec none (some "wrong")).2.2.1 (by decide)⟩

lemma isPrefixL_self_append (p t : List Char) : isPrefixL p (p ++ t) = true := by
  induction p with
  | nil => rfl
  | cons c cs ih => simp [isPrefixL, ih]

lemma replaceFirstL_self_append (c : Char) (cs t : List Char) :
    replaceFirstL (c :: cs) ((c :: cs) ++ t) = t := by
  have h : isPrefixL (c :: cs) (c :: (cs ++ t)) = true :=
    isPrefixL_self_append (c :: cs) t
  show replaceFirstL (c :: cs) (c :: (cs ++ t)) = t
  rw [replaceFirstL, if_pos h]
  exact List.drop_left (c :: cs) t

lemma replaceFirstStr_bearer (t : String) :
    replaceFirstStr "Bearer " ("Bearer " ++ t) = t := by
  cases t with
  | mk d =>
      show String.mk
        (replaceFirstL (String.data "Bearer ") (String.data ("Bearer " ++ String.mk d))) =
        String.mk d
      rw [String.data_append]
      rw [show String.data "Bearer " = 'B' :: ['e', 'a', 'r', 'e', 'r', ' '] from rfl]
      rw [replaceFirstL_self_append]

/-- C8: supplying a token through the handshake auth field and supplying
it through the Authorization header with the Bearer scheme are verified
identically: for every token value the two paths yield the same
SocketAuthResult (same identity on success, same error on failure). -/
theorem socketAuth_header_matches_authfield (verify : String → Option JwtClaims)
    (cfg : Bool) (t : String) :
    validateSocketAuth verify cfg (some t) none =
      validateSocketAuth verify cfg none (some ("Bearer " ++ t)) := by
  by_cases ht : t = ""
  · subst ht
    have hb : replaceFirstStr "Bearer " "Bearer " = "" :=
      replaceFirstStr_bearer ""
    simp [validateSocketAuth, extractSocketToken, strTruthy, hb]
  · have h1 : strTruthy (some t) = true := by simp [strTruthy, ht]
    have h2 : extractSocketToken (some t) none = some t := by
      simp [extractSocketToken, h1]
    have h3 : extractSocketToken none (some ("Bearer " ++ t)) = some t := by
      simp [extractSocketToken, strTruthy, replaceFirstStr_bearer]
    simp [validateSocketAuth, h2, h3]

/-- C1 counterexample: the authenticate handler in app.js marks a socket
authenticated when no token at all is supplied (emitting a success ack),
and likewise accepts any unverified token; the bind does not fail. -/
theorem authenticate_accepts_missing_token :
    (authenticateHandler none none initialSocket).1.authenticated = true ∧
    (authenticateHandler none none initialSocket).2 = .success none ∧
    (authenticateHandler (some "not-a-valid-jwt") (some "U1")
      initialSocket).1.authenticated = true := by
  decide

/-- C1 amended: the validateSocketAuth middleware (not wired into app.js)
does behave as claimed — a missing/falsy token fails with the
token-required error, a token failing verification fails with the
invalid-token error, and neither outcome binds an identity (the result is
err, not ok). -/
theorem validateSocketAuth_rejects (verify : String → Option JwtClaims)
    (cfg : Bool) (aTok aHdr : Option String) :
    (validateSocketAuth verify cfg none none =
      .err "Authentication token required") ∧
    (strTruthy (extractSocketToken aTok aHdr) = false →
      validateSocketAuth verify cfg aTok aHdr =
        .err "Authentication token required") ∧
    (∀ t : String, extractSocketToken aTok aHdr = some t → t ≠ "" →
      cfg = true → verify t = none →
      validateSocketAuth verify cfg aTok aHdr = .err "Invalid token") := by
  refine ⟨?_, ?_, ?_⟩
  · simp [validateSocketAuth, extractSocketToken, strTruthy]
  · intro h
    simp [validateSocketAuth, h]
  · intro t ht htne hcfg hv
    have hs : strTruthy (some t) = true := by simp [strTruthy, htne]
    simp [validateSocketAuth, ht, hs, hcfg, hv]

/-- Witness for C1: a concrete verifier that rejects everything, applied
to the token x. -/
theorem validateSocketAuth_rejects_witness :
    extractSocketToken (some "x") none = some "x" ∧
    validateSocketAuth (fun _ => none) true (some "x") none =
      .err "Invalid token" :=
  ⟨by decide,
   (validateSocketAuth_rejects (fun _ => none) true (some "x") none).2.2 "x"
     (by decide) (by decide) rfl rfl⟩

/-- C7 counterexample: a connection authenticates binding userId A, then a
single join_user_room call rebinds its userId to B — the identity is not
immutable for the connection lifetime. -/
theorem identity_not_immutable :
    (authenticateHandler (some "tok") (some "A") initialSocket).1.userId =
      some "A" ∧
    (join_user_room "B"
      (authenticateHandler (some "tok") (some "A") initialSocket).1).userId =
      some "B" ∧
    (join_user_room "B"
      (authenticateHandler (some "tok") (some "A") initialSocket).1).userId ≠
      (authenticateHandler (some "tok") (some "A") initialSocket).1.userId := by
  decide

/-- C7 amended: the bound identity is mutable — every join_user_room call
overwrites it with the requested id, and every authenticate call with a
truthy token overwrites it with the client-supplied userId. -/
theorem identity_overwritten_by_handlers (s : SocketState) (uid : String)
    (tok u : Option String) :
    (join_user_room uid s).userId = some uid ∧
    (authenticateHandler tok u s).1.userId =
      (if strTruthy tok then u else s.userId) := by
  refine ⟨rfl, ?_⟩
  cases h : strTruthy tok <;> simp [authenticateHandler, h]

lemma mem_addRoom (room : String) (rooms : List String) :
    room ∈ addRoom room rooms := by
  unfold addRoom
  split
  · assumption
  · exact List.mem_cons_self room rooms

/-- C4 counterexample: a connection whose bound identity is A joins the
personal room of identity B via join_user_room, with no authorization
failure — joinedChannels can contain a channel the identity is not
authorized for. -/
theorem cross_identity_room_join :
    "user_B" ∈ (join_user_room "B"
      { userId := some "A", authenticated := true,
        rooms := ["user_A"] }).rooms ∧
    (join_user_room "B"
      { userId := some "A", authenticated := true,
        rooms := ["user_A"] }).userId = some "B" := by
  decide

/-- C4 amended: room joins in app.js are unguarded — join_user_room and
join_trip_room always add the requested room for any socket state, with no
role or identity check (and no role-pool join handler exists at all);
join_trip_room leaves the identity untouched while join_user_room rebinds
it. -/
theorem room_joins_unguarded (s : SocketState) (uid tid : String) :
    ("user_" ++ uid) ∈ (join_user_room uid s).rooms ∧
    ("trip_" ++ tid) ∈ (join_trip_room tid s).rooms ∧
    (join_trip_room tid s).userId = s.userId := by
  exact ⟨mem_addRoom _ _, mem_addRoom _ _, rfl⟩

/-- C2 counterexample: for the accepted event with contextId T1,
providerId D1, requesterId R1, a connection c0 that is a member of the
shared context room trip_T1 (and of no personal room) receives nothing —
the delivered set is not the union claimed. -/
theorem tripAccept_misses_context_member :
    receivesB (tripAcceptHandler
        { tripId := some "T1", driverId := some "D1", riderId := some "R1" }
        true).2 membershipC2 "c0" = false ∧
    "c0" ∈ membershipC2 ("trip_" ++ "T1") ∧
    "c0" ∉ membershipC2 ("user_" ++ "R1") ∧
    "c0" ∉ membershipC2 ("user_" ++ "D1") := by
  decide

/-- C2 amended: the accepted event is delivered to exactly the members of
personal(riderId) and personal(driverId); the shared context room
trip_<tripId> is never addressed. -/
theorem tripAccept_delivery_set (tid did rid : String)
    (m : String → List String) (c : String) :
    receivesB (tripAcceptHandler
        { tripId := some tid, driverId := some did, riderId := some rid }
        true).2 m c =
      ((m ("user_" ++ rid)).contains c || (m ("user_" ++ did)).contains c) := by
  simp [receivesB, tripAcceptHandler, jsStr]

/-- C3 counterexample: POST /api/trip/send-to-drivers with every field
present except driverIds responds 500 Internal server error via the error
middleware — not the claimed 400 with a MissingField validation error. -/
theorem sendToDrivers_missing_field_is_500 :
    (applyErrorMiddleware (sendToDriversHandler
        { tripId := some "T1", riderId := some "R1", driverIds := none,
          tripData := some "d" } true)).1.status = 500 ∧
    (applyErrorMiddleware (sendToDriversHandler
        { tripId := some "T1", riderId := some "R1", driverIds := none,
          tripData := some "d" } true)).1.error =
      some "Internal server error" ∧
    (applyErrorMiddleware (sendToDriversHandler
        { tripId := some "T1", riderId := some "R1", driverIds := none,
          tripData := some "d" } true)).1.status ≠ 400 := by
  decide

/-- C3 amended: no ingestion endpoint validates required fields, so a 400
MissingField response is never produced: send-to-drivers responds 500 when
driverIds is absent (a TypeError reaches the error middleware) and 200
otherwise, and trip/accept responds 200 whatever fields are absent. -/
theorem ingestion_never_400 (b : SendToDriversBody) (ioUp : Bool)
    (ab : TripAcceptBody) :
    (applyErrorMiddleware (sendToDriversHandler b ioUp)).1.status =
      (match b.driverIds with
       | none => 500
       | some _ => 200) ∧
    (applyErrorMiddleware (sendToDriversHandler b ioUp)).1.status ≠ 400 ∧
    (tripAcceptHandler ab ioUp).1.status = 200 := by
  refine ⟨?_, ?_, rfl⟩ <;>
    cases hb : b.driverIds <;>
      simp [sendToDriversHandler, applyErrorMiddleware, hb]

/-- C6 counterexample: for an emergency alert with tripId T1 and userId
U1, a member of the monitoring room and a member of the personal room
user_U1 both receive nothing, though the claim says those targets are
addressed unconditionally. -/
theorem emergencyAlert_misses_monitoring_and_personal :
    receivesB (emergencyAlertHandler
        { tripId := some "T1", userId := some "U1", alertKind := some "sos",
          location := some "loc" } true).2 membershipC6 "c1" = false ∧
    receivesB (emergencyAlertHandler
        { tripId := some "T1", userId := some "U1", alertKind := some "sos",
          location := some "loc" } true).2 membershipC6 "c2" = false ∧
    "c1" ∈ membershipC6 "monitoring" ∧
    "c2" ∈ membershipC6 ("user_" ++ "U1") := by
  decide

/-- C6 amended: the emergency alert is routed solely to the shared context
room trip_<tripId> — a single emission, with no personal rooms and no
monitoring room — so a connection receives it iff it is a member of that
room. -/
theorem emergencyAlert_delivery_set (b : EmergencyBody)
    (m : String → List String) (c : String) :
    receivesB (emergencyAlertHandler b true).2 m c =
      (m ("trip_" ++ jsStr b.tripId)).contains c ∧
    (emergencyAlertHandler b true).2.map Emission.room =
      ["trip_" ++ jsStr b.tripId] := by
  constructor
  · simp [receivesB, emergencyAlertHandler]
  · simp [emergencyAlertHandler]

/-- C10: once validateApiKey has passed, an endpoint whose field reads do
not throw responds 200 success true regardless of whether Socket.IO is
initialized and regardless of room membership (which never enters the
response): trip/accept always, and send-to-drivers whenever it returns
normally; the trip/accept response is identical with io up or down. -/
theorem ingestion_success_envelope (ab : TripAcceptBody)
    (sb : SendToDriversBody) (ioUp : Bool) :
    (tripAcceptHandler ab ioUp).1.status = 200 ∧
    (tripAcceptHandler ab ioUp).1.success = some true ∧
    (tripAcceptHandler ab ioUp).1 = (tripAcceptHandler ab (!ioUp)).1 ∧
    (∀ r, sendToDriversHandler sb ioUp = Except.ok r →
      r.1.status = 200 ∧ r.1.success = some true) := by
  refine ⟨rfl, rfl, rfl, ?_⟩
  intro r hr
  cases hb : sb.driverIds with
  | none => simp [sendToDriversHandler, hb] at hr
  | some ds =>
      simp [sendToDriversHandler, hb] at hr
      rw [← hr]
      exact ⟨rfl, rfl⟩

/-- Witness for C10: a send-to-drivers call with an empty driverIds list
(zero deliveries, io up) still returns the 200 success envelope. -/
theorem ingestion_success_envelope_witness :
    sendToDriversHandler
        { tripId := some "T1", riderId := some "R1", driverIds := some [],
          tripData := some "d" } true =
      Except.ok
        ({ status := 200, success := some true,
           message := some "Trip sent to drivers", error := none }, []) ∧
    (({ status := 200, success := some true,
        message := some "Trip sent to drivers", error := none },
      ([] : List Emission)) : JsonResponse × List Emission).1.status = 200 ∧
    (({ status := 200, success := some true,
        message := some "Trip sent to drivers", error := none },
      ([] : List Emission)) : JsonResponse × List Emission).1.success =
      some true :=
  ⟨rfl,
   ((ingestion_success_envelope
       { tripId := none, driverId := none, riderId := none }
       { tripId := some "T1", riderId := some "R1", driverIds := some [],
         tripData := some "d" } true).2.2.2 _ rfl).1,
   ((ingestion_success_envelope
       { tripId := none, driverId := none, riderId := none }
       { tripId := some "T1", riderId := some "R1", driverIds := some [],
         tripData := some "d" } true).2.2.2 _ rfl).2⟩

end AllezMiddleman
